import Mathlib

/-!
Verification development for the repository file
src/foundry/common/documents/token.mjs.d.ts, a TypeScript ambient
declaration file describing the Token and Card document models of an
external virtual tabletop application.  The file under study contains
only type level declarations, so this development embeds the
declaration surface itself: the top level declarations, every class
member signature together with a flag recording whether the member
carries an executable body in the source, and the field schema
descriptors with their declared options.  All data below is translated
directly from the source text.
-/

/-- Type expressions as they appear in the declaration file.  A
reference by name, a generic application with one or two arguments, a
string literal type, a binary union written left associated as in the
source, the primitive types, and an inline object type literal
described by its text. -/
inductive TSType where
  | ref (name : String)
  | app1 (name : String) (a : TSType)
  | app2 (name : String) (a b : TSType)
  | strLit (s : String)
  | union (a b : TSType)
  | arrayOf (a : TSType)
  | undefinedType
  | nullType
  | voidType
  | booleanType
  | stringType
  | numberType
  | objectType
  | inlineObj (desc : String)

/-- Abbreviation for the pattern InstanceType of
ConfiguredDocumentClassForName applied to a document name literal,
which the source uses for every configured document reference in the
Card class. -/
def configuredInstance (s : String) : TSType :=
  TSType.app1 "InstanceType" (TSType.app1 "ConfiguredDocumentClassForName" (TSType.strLit s))

/-- One declared parameter of a method signature. -/
structure Param where
  name : String
  type : TSType
  optional : Bool

/-- The kind of a class member in the declaration file. -/
inductive MemberKind where
  | ctor
  | method
  | getter
  | staticProp

/-- One class member as declared in the source: its name, kind,
modifiers, parameter list, declared return or property type, whether
the source gives it an executable body, and whether its documentation
comment mentions a thrown error. -/
structure Member where
  name : String
  kind : MemberKind
  isStatic : Bool
  isPrivate : Bool
  isOverride : Bool
  params : List Param
  retType : TSType
  hasBody : Bool
  docMentionsThrows : Bool

/-- Heading of a class declaration: its name, the extends clause text
and the type arguments supplied to the extended class. -/
structure ClassHeader where
  name : String
  extendsName : String
  typeArgs : List TSType

/-- Finds the first member with the given name. -/
def findMember : List Member → String → Option Member
  | [], _ => none
  | m :: rest, n => if m.name == n then some m else findMember rest n

/-- Line 29 of the source: the BaseToken constructor signature. -/
def BaseToken.constructorDecl : Member :=
  { name := "constructor", kind := MemberKind.ctor, isStatic := false, isPrivate := false,
    isOverride := false,
    params := [{ name := "data", type := TSType.ref "BaseToken.ConstructorData", optional := false },
               { name := "context", type := TSType.ref "DocumentConstructionContext", optional := true }],
    retType := TSType.voidType, hasBody := false, docMentionsThrows := false }

/-- Line 31: the static metadata property declaration. -/
def BaseToken.metadataProp : Member :=
  { name := "metadata", kind := MemberKind.staticProp, isStatic := true, isPrivate := false,
    isOverride := true, params := [],
    retType := TSType.app1 "Readonly" (TSType.ref "BaseToken.Metadata"),
    hasBody := false, docMentionsThrows := false }

/-- Line 33: the static defineSchema method signature. -/
def BaseToken.defineSchema : Member :=
  { name := "defineSchema", kind := MemberKind.method, isStatic := true, isPrivate := false,
    isOverride := true, params := [], retType := TSType.ref "BaseToken.Schema",
    hasBody := false, docMentionsThrows := false }

/-- Lines 35 to 40: the private static method validating the structure
of the detection modes array, declared with a hash sign in the source.
Its documentation comment says it throws an error if the array is
invalid; the declaration has no body. -/
def BaseToken.validateDetectionModes : Member :=
  { name := "validateDetectionModes", kind := MemberKind.method, isStatic := true,
    isPrivate := true, isOverride := false,
    params := [{ name := "modes", type := TSType.arrayOf (TSType.ref "TokenDetectionMode"), optional := false }],
    retType := TSType.voidType, hasBody := false, docMentionsThrows := true }

/-- Line 46: the static DEFAULT_ICON string property. -/
def BaseToken.defaultIcon : Member :=
  { name := "DEFAULT_ICON", kind := MemberKind.staticProp, isStatic := true, isPrivate := false,
    isOverride := false, params := [], retType := TSType.stringType,
    hasBody := false, docMentionsThrows := false }

/-- Lines 48 to 52: the private static method deciding whether a user
may update an existing Token, declared with a hash sign in the source
and carrying no body. -/
def BaseToken.canUpdate : Member :=
  { name := "canUpdate", kind := MemberKind.method, isStatic := true, isPrivate := true,
    isOverride := false,
    params := [{ name := "user", type := TSType.ref "documents.BaseUser", optional := false },
               { name := "doc", type := TSType.ref "BaseToken", optional := false },
               { name := "data", type := TSType.ref "BaseToken.UpdateData", optional := false }],
    retType := TSType.booleanType, hasBody := false, docMentionsThrows := false }

/-- Lines 54 to 66: the testUserPermission override signature.  The
third parameter is a destructured optional options object exposing the
boolean exact option. -/
def BaseToken.testUserPermission : Member :=
  { name := "testUserPermission", kind := MemberKind.method, isStatic := false,
    isPrivate := false, isOverride := true,
    params := [{ name := "user", type := TSType.ref "documents.BaseUser", optional := false },
               { name := "permission",
                 type := TSType.union (TSType.ref "keyof typeof CONST.DOCUMENT_OWNERSHIP_LEVELS")
                   (TSType.ref "CONST.DOCUMENT_OWNERSHIP_LEVELS"), optional := false },
               { name := "destructured: exact",
                 type := TSType.inlineObj "exact?: boolean", optional := true }],
    retType := TSType.booleanType, hasBody := false, docMentionsThrows := false }

/-- Line 68: the static cleanData override signature. -/
def BaseToken.cleanData : Member :=
  { name := "cleanData", kind := MemberKind.method, isStatic := true, isPrivate := false,
    isOverride := true,
    params := [{ name := "source", type := TSType.union TSType.objectType TSType.undefinedType,
                 optional := true },
               { name := "options",
                 type := TSType.union (TSType.ref "fields.DataField.CleanOptions") TSType.undefinedType,
                 optional := true }],
    retType := TSType.objectType, hasBody := false, docMentionsThrows := false }

/-- Line 70: the static migrateData override signature. -/
def BaseToken.migrateData : Member :=
  { name := "migrateData", kind := MemberKind.method, isStatic := true, isPrivate := false,
    isOverride := true,
    params := [{ name := "source", type := TSType.objectType, optional := false }],
    retType := TSType.objectType, hasBody := false, docMentionsThrows := false }

/-- Lines 72 to 83: the static shimData override signature with a
destructured optional options object exposing the boolean embedded
option. -/
def BaseToken.shimData : Member :=
  { name := "shimData", kind := MemberKind.method, isStatic := true, isPrivate := false,
    isOverride := true,
    params := [{ name := "data", type := TSType.objectType, optional := false },
               { name := "destructured: embedded",
                 type := TSType.inlineObj "embedded?: boolean", optional := true }],
    retType := TSType.objectType, hasBody := false, docMentionsThrows := false }

/-- Lines 24 to 28: the heading of the ambient BaseToken class, which
extends Document with the schema field, the metadata and the parent
document type, the latter being a configured BaseScene instance or
null. -/
def BaseToken.header : ClassHeader :=
  { name := "BaseToken", extendsName := "Document",
    typeArgs := [TSType.ref "BaseToken.SchemaField",
                 TSType.ref "BaseToken.Metadata",
                 TSType.union
                   (TSType.app1 "InstanceType"
                     (TSType.app1 "ConfiguredDocumentClass" (TSType.ref "typeof documents.BaseScene")))
                   TSType.nullType] }

/-- The members of the ambient BaseToken class in source order, lines
29 to 83. -/
def BaseToken.members : List Member :=
  [BaseToken.constructorDecl, BaseToken.metadataProp, BaseToken.defineSchema,
   BaseToken.validateDetectionModes, BaseToken.defaultIcon, BaseToken.canUpdate,
   BaseToken.testUserPermission, BaseToken.cleanData, BaseToken.migrateData,
   BaseToken.shimData]

/-- Line 442: the heading of the globally declared Card class, which
extends the ClientDocumentMixin applied to the common BaseCard model. -/
def Card.header : ClassHeader :=
  { name := "Card", extendsName := "ClientDocumentMixin(foundry.documents.BaseCard)",
    typeArgs := [] }

/-- Lines 443 to 446: the currentFace getter. -/
def Card.currentFace : Member :=
  { name := "currentFace", kind := MemberKind.getter, isStatic := false, isPrivate := false,
    isOverride := false, params := [],
    retType := TSType.union (TSType.ref "CardFaceData") TSType.nullType,
    hasBody := false, docMentionsThrows := false }

/-- Lines 448 to 451: the img getter. -/
def Card.img : Member :=
  { name := "img", kind := MemberKind.getter, isStatic := false, isPrivate := false,
    isOverride := false, params := [], retType := TSType.stringType,
    hasBody := false, docMentionsThrows := false }

/-- Lines 453 to 456: the name getter. -/
def Card.nameGetter : Member :=
  { name := "name", kind := MemberKind.getter, isStatic := false, isPrivate := false,
    isOverride := false, params := [], retType := TSType.stringType,
    hasBody := false, docMentionsThrows := false }

/-- Lines 458 to 461: the source getter, a reference to the source
Cards document which defines this Card. -/
def Card.source : Member :=
  { name := "source", kind := MemberKind.getter, isStatic := false, isPrivate := false,
    isOverride := false, params := [],
    retType := TSType.union (TSType.union (configuredInstance "Cards") TSType.undefinedType)
      TSType.nullType,
    hasBody := false, docMentionsThrows := false }

/-- Lines 463 to 467: the isHome getter. -/
def Card.isHome : Member :=
  { name := "isHome", kind := MemberKind.getter, isStatic := false, isPrivate := false,
    isOverride := false, params := [], retType := TSType.booleanType,
    hasBody := false, docMentionsThrows := false }

/-- Lines 469 to 472: the showFace getter. -/
def Card.showFace : Member :=
  { name := "showFace", kind := MemberKind.getter, isStatic := false, isPrivate := false,
    isOverride := false, params := [], retType := TSType.booleanType,
    hasBody := false, docMentionsThrows := false }

/-- Lines 474 to 477: the hasNextFace getter. -/
def Card.hasNextFace : Member :=
  { name := "hasNextFace", kind := MemberKind.getter, isStatic := false, isPrivate := false,
    isOverride := false, params := [], retType := TSType.booleanType,
    hasBody := false, docMentionsThrows := false }

/-- Lines 479 to 482: the hasPreviousFace getter. -/
def Card.hasPreviousFace : Member :=
  { name := "hasPreviousFace", kind := MemberKind.getter, isStatic := false, isPrivate := false,
    isOverride := false, params := [], retType := TSType.booleanType,
    hasBody := false, docMentionsThrows := false }

/-- Line 484: the prepareDerivedData override signature. -/
def Card.prepareDerivedData : Member :=
  { name := "prepareDerivedData", kind := MemberKind.method, isStatic := false, isPrivate := false,
    isOverride := true, params := [], retType := TSType.voidType,
    hasBody := false, docMentionsThrows := false }

/-- Lines 486 to 493: the flip method signature.  The optional face
parameter is a number, null or undefined, and the promise resolves to
a configured Card instance or undefined. -/
def Card.flip : Member :=
  { name := "flip", kind := MemberKind.method, isStatic := false, isPrivate := false,
    isOverride := false,
    params := [{ name := "face",
                 type := TSType.union (TSType.union TSType.numberType TSType.nullType)
                   TSType.undefinedType, optional := true }],
    retType := TSType.app1 "Promise" (TSType.union (configuredInstance "Card") TSType.undefinedType),
    hasBody := false, docMentionsThrows := false }

/-- Lines 495 to 504: the pass method signature.  It takes a configured
Cards instance and an optional PassOptions value and the promise
resolves to a configured Card instance or undefined. -/
def Card.pass : Member :=
  { name := "pass", kind := MemberKind.method, isStatic := false, isPrivate := false,
    isOverride := false,
    params := [{ name := "to", type := configuredInstance "Cards", optional := false },
               { name := "options",
                 type := TSType.union (TSType.ref "Cards.PassOptions") TSType.undefinedType,
                 optional := true }],
    retType := TSType.app1 "Promise" (TSType.union (configuredInstance "Card") TSType.undefinedType),
    hasBody := false, docMentionsThrows := false }

/-- Lines 506 to 514: the play method signature, documented as a more
semantic alias for pass. -/
def Card.play : Member :=
  { name := "play", kind := MemberKind.method, isStatic := false, isPrivate := false,
    isOverride := false,
    params := [{ name := "to", type := configuredInstance "Cards", optional := false },
               { name := "options",
                 type := TSType.union (TSType.ref "Cards.PassOptions") TSType.undefinedType,
                 optional := true }],
    retType := TSType.app1 "Promise" (TSType.union (configuredInstance "Card") TSType.undefinedType),
    hasBody := false, docMentionsThrows := false }

/-- Lines 516 to 524: the discard method signature, documented as a
more semantic alias for pass. -/
def Card.discard : Member :=
  { name := "discard", kind := MemberKind.method, isStatic := false, isPrivate := false,
    isOverride := false,
    params := [{ name := "to", type := configuredInstance "Cards", optional := false },
               { name := "options",
                 type := TSType.union (TSType.ref "Cards.PassOptions") TSType.undefinedType,
                 optional := true }],
    retType := TSType.app1 "Promise" (TSType.union (configuredInstance "Card") TSType.undefinedType),
    hasBody := false, docMentionsThrows := false }

/-- Lines 526 to 532: the recall method signature.  Its promise result
type is a configured Card instance with no undefined alternative. -/
def Card.recall : Member :=
  { name := "recall", kind := MemberKind.method, isStatic := false, isPrivate := false,
    isOverride := false,
    params := [{ name := "options",
                 type := TSType.union (TSType.ref "Cards.ResetOptions") TSType.undefinedType,
                 optional := true }],
    retType := TSType.app1 "Promise" (configuredInstance "Card"),
    hasBody := false, docMentionsThrows := false }

/-- Lines 534 to 545: the toMessage method signature, whose promise
resolves to a configured ChatMessage instance or undefined. -/
def Card.toMessage : Member :=
  { name := "toMessage", kind := MemberKind.method, isStatic := false, isPrivate := false,
    isOverride := false,
    params := [{ name := "messageData",
                 type := TSType.app1 "DeepPartial"
                   (TSType.ref "foundry.documents.BaseChatMessage.ConstructorData"),
                 optional := true },
               { name := "options",
                 type := TSType.union (TSType.ref "DocumentModificationContext") TSType.undefinedType,
                 optional := true }],
    retType := TSType.app1 "Promise"
      (TSType.union (configuredInstance "ChatMessage") TSType.undefinedType),
    hasBody := false, docMentionsThrows := false }

/-- The members of the globally declared Card class in source order,
lines 443 to 545. -/
def Card.members : List Member :=
  [Card.currentFace, Card.img, Card.nameGetter, Card.source, Card.isHome, Card.showFace,
   Card.hasNextFace, Card.hasPreviousFace, Card.prepareDerivedData, Card.flip, Card.pass,
   Card.play, Card.discard, Card.recall, Card.toMessage]

/-- Default values declared for schema fields: an integer, a value in
hundredths for decimal literals such as 0.1, a string, a boolean, a
reference to a constant, or an arrow function described by its text. -/
inductive InitialVal where
  | intVal (n : Int)
  | centiVal (hundredths : Int)
  | strVal (s : String)
  | boolVal (b : Bool)
  | constRef (path : String)
  | funcVal (desc : String)

/-- Options of a StringField as declared in the source.  A value of
none records that the option does not appear in the declaration. -/
structure StringFieldOptions where
  required : Option Bool := none
  blank : Option Bool := none
  nullable : Option Bool := none
  initial : Option InitialVal := none
  label : Option String := none
  hint : Option String := none

/-- Options of a NumberField as declared in the source.  Step values
are recorded in hundredths, so step 0.01 is stored as 1, and choices
records the name of the constant set the field is restricted to.  The
extraTypeArgs list records the additional generic type arguments some
declarations pass after the options object, by their source text. -/
structure NumberFieldOptions where
  required : Option Bool := none
  nullable : Option Bool := none
  integer : Option Bool := none
  positive : Option Bool := none
  minVal : Option Int := none
  maxVal : Option Int := none
  stepCenti : Option Int := none
  initial : Option InitialVal := none
  choices : Option String := none
  label : Option String := none
  hint : Option String := none
  validationError : Option String := none
  extraTypeArgs : List String := []

/-- Field descriptors of the data schema language used by the source,
one constructor per field class that the file instantiates, each
carrying the options the declaration passes. -/
inductive FieldType where
  | documentIdField
  | stringField (o : StringFieldOptions)
  | numberField (o : NumberFieldOptions)
  | booleanField (initial : Option InitialVal)
  | angleField (initial : Option Int) (base : Option Int)
  | alphaField (initial : Option InitialVal) (label : Option String) (hint : Option String)
  | colorField (label : Option String)
  | foreignDocumentField (target : String) (idOnly : Bool)
  | objectField (valueDesc : String)
  | textureDataField (initialDesc : String) (wildcard : Bool)
  | embeddedDataField (model : String)
  | arrayField (elem : FieldType) (hasValidateOption : Bool)
  | schemaField (sub : List (String × FieldType))
  | flagsField (scope : String)

/-- Finds the descriptor of the named field in a schema. -/
def lookupField : List (String × FieldType) → String → Option FieldType
  | [], _ => none
  | (k, v) :: rest, n => if k == n then some v else lookupField rest n

/-- Lines 273 to 279: the sub schema of the primary resource bar, a
single attribute path string which is required, nullable, not blank
and has an arrow function default. -/
def bar1Schema : List (String × FieldType) :=
  [("attribute", FieldType.stringField
    { required := some true, nullable := some true, blank := some false,
      initial := some (InitialVal.funcVal "() => string | null") })]

/-- Lines 288 to 294: the sub schema of the secondary resource bar,
declared identically to the primary one. -/
def bar2Schema : List (String × FieldType) :=
  [("attribute", FieldType.stringField
    { required := some true, nullable := some true, blank := some false,
      initial := some (InitialVal.funcVal "() => string | null") })]

/-- Lines 306 to 394: the sight sub schema configuring vision for the
Token, with the declared bounds on range, brightness, saturation and
contrast. -/
def sightSchema : List (String × FieldType) :=
  [("enabled", FieldType.booleanField (some (InitialVal.funcVal "() => boolean"))),
   ("range", FieldType.numberField { required := some true, minVal := some 0, stepCenti := some 1 }),
   ("angle", FieldType.angleField (some 360) (some 360)),
   ("visionMode", FieldType.stringField
     { required := some true, blank := some false, initial := some (InitialVal.strVal "basic"),
       label := some "TOKEN.VisionMode", hint := some "TOKEN.VisionModeHint" }),
   ("color", FieldType.colorField (some "TOKEN.VisionColor")),
   ("attenuation", FieldType.alphaField (some (InitialVal.centiVal 10))
     (some "TOKEN.VisionAttenuation") (some "TOKEN.VisionAttenuationHint")),
   ("brightness", FieldType.numberField
     { required := some true, nullable := some false, initial := some (InitialVal.intVal 0),
       minVal := some (-1), maxVal := some 1, label := some "TOKEN.VisionBrightness",
       hint := some "TOKEN.VisionBrightnessHint" }),
   ("saturation", FieldType.numberField
     { required := some true, nullable := some false, initial := some (InitialVal.intVal 0),
       minVal := some (-1), maxVal := some 1, label := some "TOKEN.VisionSaturation",
       hint := some "TOKEN.VisionSaturationHint" }),
   ("contrast", FieldType.numberField
     { required := some true, nullable := some false, initial := some (InitialVal.intVal 0),
       minVal := some (-1), maxVal := some 1, label := some "TOKEN.VisionContrast",
       hint := some "TOKEN.VisionContrastHint" })]

/-- Lines 401 to 419: the element sub schema of the detection modes
array: the mode id, whether it is enabled, and its nonnegative range. -/
def detectionModeSchema : List (String × FieldType) :=
  [("id", FieldType.stringField {}),
   ("enabled", FieldType.booleanField (some (InitialVal.boolVal true))),
   ("range", FieldType.numberField
     { required := some true, minVal := some 0, stepCenti := some 1,
       initial := some (InitialVal.intVal 0) })]

/-- Lines 110 to 430: the Token schema interface, every field of the
BaseToken Schema in source order with the options its declaration
passes. -/
def tokenSchema : List (String × FieldType) :=
  [("_id", FieldType.documentIdField),
   ("name", FieldType.stringField { required := some true, blank := some true }),
   ("displayName", FieldType.numberField
     { required := some true, initial := some (InitialVal.constRef "CONST.TOKEN_DISPLAY_MODES.NONE"),
       choices := some "CONST.TOKEN_DISPLAY_MODES",
       validationError := some "must be a value in CONST.TOKEN_DISPLAY_MODES",
       extraTypeArgs := ["CONST.TOKEN_DISPLAY_MODES | null | undefined",
                         "CONST.TOKEN_DISPLAY_MODES", "CONST.TOKEN_DISPLAY_MODES"] }),
   ("actorId", FieldType.foreignDocumentField "documents.BaseActor" true),
   ("actorLink", FieldType.booleanField none),
   ("actorData", FieldType.objectField
     "BaseActor constructor, properties and source data excluding prototypeToken and token"),
   ("texture", FieldType.textureDataField "() => BaseToken.DEFAULT_ICON" true),
   ("width", FieldType.numberField
     { positive := some true, initial := some (InitialVal.intVal 1), label := some "Width" }),
   ("height", FieldType.numberField
     { positive := some true, initial := some (InitialVal.intVal 1), label := some "Height" }),
   ("x", FieldType.numberField
     { required := some true, integer := some true, nullable := some false,
       initial := some (InitialVal.intVal 0), label := some "XCoord" }),
   ("y", FieldType.numberField
     { required := some true, integer := some true, nullable := some false,
       initial := some (InitialVal.intVal 0), label := some "YCoord" }),
   ("elevation", FieldType.numberField
     { required := some true, nullable := some false, initial := some (InitialVal.intVal 0) }),
   ("lockRotation", FieldType.booleanField none),
   ("rotation", FieldType.angleField none none),
   ("effects", FieldType.arrayField (FieldType.stringField {}) false),
   ("overlayEffect", FieldType.stringField {}),
   ("alpha", FieldType.alphaField none none none),
   ("hidden", FieldType.booleanField none),
   ("disposition", FieldType.numberField
     { required := some true, choices := some "CONST.TOKEN_DISPOSITIONS",
       initial := some (InitialVal.constRef "CONST.TOKEN_DISPOSITIONS.HOSTILE"),
       validationError := some "must be a value in CONST.TOKEN_DISPOSITIONS",
       extraTypeArgs := ["CONST.TOKEN_DISPOSITIONS | null | undefined",
                         "CONST.TOKEN_DISPOSITIONS", "CONST.TOKEN_DISPOSITIONS"] }),
   ("displayBars", FieldType.numberField
     { required := some true, choices := some "CONST.TOKEN_DISPLAY_MODES",
       initial := some (InitialVal.constRef "CONST.TOKEN_DISPLAY_MODES.NONE"),
       validationError := some "must be a value in CONST.TOKEN_DISPLAY_MODES",
       extraTypeArgs := ["CONST.TOKEN_DISPLAY_MODES | null | undefined",
                         "CONST.TOKEN_DISPLAY_MODES", "CONST.TOKEN_DISPLAY_MODES"] }),
   ("bar1", FieldType.schemaField bar1Schema),
   ("bar2", FieldType.schemaField bar2Schema),
   ("light", FieldType.embeddedDataField "LightData"),
   ("sight", FieldType.schemaField sightSchema),
   ("detectionModes", FieldType.arrayField (FieldType.schemaField detectionModeSchema) true),
   ("flags", FieldType.flagsField "Token")]

/-- Lines 88 to 102: the literal part of the Metadata type, merged over
the base DocumentMetadata.  The update permission is declared as a
function type rather than a permission string. -/
structure DocMetadata where
  docName : String
  collection : String
  label : String
  labelPlural : String
  isEmbedded : Bool
  permissionCreate : String
  permissionUpdateIsFunction : Bool
  permissionDelete : String

/-- The metadata literal of the BaseToken namespace: the document is
named Token, lives in the tokens collection and is embedded. -/
def BaseToken.metadataSpec : DocMetadata :=
  { docName := "Token", collection := "tokens", label := "DOCUMENT.Token",
    labelPlural := "DOCUMENT.Tokens", isEmbedded := true,
    permissionCreate := "TOKEN_CREATE", permissionUpdateIsFunction := true,
    permissionDelete := "TOKEN_DELETE" }

/-- Right hand sides of the type declarations inside the BaseToken
namespace: a plain alias of a sibling name, the SchemaField of a
schema, the three inner type operators applied to a schema, or the
metadata merge. -/
inductive NSTypeDef where
  | aliasOf (target : String)
  | schemaFieldOf (schema : String)
  | innerAssignmentOf (schema : String)
  | innerInitializedOf (schema : String)
  | innerPersistedOf (schema : String)
  | metadataMerge (m : DocMetadata)

/-- Lines 88 to 108: the type declarations of the BaseToken namespace
in source order.  ConstructorData is declared as a plain alias of
UpdateData. -/
def BaseToken.typeAliases : List (String × NSTypeDef) :=
  [("Metadata", NSTypeDef.metadataMerge BaseToken.metadataSpec),
   ("SchemaField", NSTypeDef.schemaFieldOf "Schema"),
   ("ConstructorData", NSTypeDef.aliasOf "UpdateData"),
   ("UpdateData", NSTypeDef.innerAssignmentOf "Schema"),
   ("Properties", NSTypeDef.innerInitializedOf "Schema"),
   ("Source", NSTypeDef.innerPersistedOf "Schema")]

/-- Finds the declaration of the named type in an alias list. -/
def lookupAlias : List (String × NSTypeDef) → String → Option NSTypeDef
  | [], _ => none
  | (k, v) :: rest, n => if k == n then some v else lookupAlias rest n

/-- Resolves a namespace type name through plain alias links, with fuel
bounding the chain length. -/
def resolveAlias (l : List (String × NSTypeDef)) : Nat → String → Option NSTypeDef
  | 0, _ => none
  | Nat.succ fuel, n =>
    match lookupAlias l n with
    | some (NSTypeDef.aliasOf m) => resolveAlias l fuel m
    | some d => some d
    | none => none

/-- Semantics of a namespace type name relative to an arbitrary
interpretation of the non alias right hand sides: a value is accepted
at a name exactly when the interpretation accepts it at the resolved
declaration. -/
def acceptedAs {V : Type} (I : NSTypeDef → V → Prop) (n : String) (v : V) : Prop :=
  match resolveAlias BaseToken.typeAliases 8 n with
  | some d => I d v
  | none => False

/-- Top level declarations of the repository source in the order they
appear: type only imports, the global type alias block, the empty
interface merge for BaseToken, the ambient class, the default export,
the BaseToken namespace with its type aliases and schema interface,
and the globally declared Card class. -/
inductive TopDecl where
  | importTypeDecl (clause : String) (fromPath : String)
  | globalAliasBlock (aliases : List (String × String))
  | interfaceMergeDecl (name : String) (extendsDesc : String)
  | ambientClassDecl (h : ClassHeader) (members : List Member)
  | exportDefaultDecl (name : String)
  | namespaceDecl (ns : String) (aliases : List (String × NSTypeDef))
      (schema : List (String × FieldType))
  | globalClassDecl (h : ClassHeader) (members : List Member)

/-- Lines 10 to 16: the global type alias block, recorded as alias
names paired with the source text of their right hand sides. -/
def globalAliases : List (String × String) :=
  [("TokenSightData", "BaseToken.Properties[\"sight\"]"),
   ("TokenDetectionMode", "BaseToken.Properties[\"detectionModes\"][number]"),
   ("TokenData", "BaseToken.Properties"),
   ("TokenBarData", "BaseToken.Properties[\"bar1\"]")]

/-- Lines 1 to 431: the top level declarations of the BaseToken part of
the source file in order. -/
def tokenFileDecls : List TopDecl :=
  [TopDecl.importTypeDecl "ConfiguredDocumentClass" "../../../types/helperTypes.js",
   TopDecl.importTypeDecl "Document" "../abstract/document.mjs",
   TopDecl.importTypeDecl "DocumentMetadata" "../abstract/document.mjs",
   TopDecl.importTypeDecl "CONST" "../constants.mjs",
   TopDecl.importTypeDecl "LightData, TextureData" "../data/data.mjs",
   TopDecl.importTypeDecl "fields" "../data/fields.mjs",
   TopDecl.importTypeDecl "documents" "./module.mjs",
   TopDecl.globalAliasBlock globalAliases,
   TopDecl.interfaceMergeDecl "BaseToken" "BaseToken.Properties",
   TopDecl.ambientClassDecl BaseToken.header BaseToken.members,
   TopDecl.exportDefaultDecl "BaseToken",
   TopDecl.namespaceDecl "BaseToken" BaseToken.typeAliases tokenSchema]

/-- Lines 432 to 546: the top level declarations of the Card part of
the source file in order. -/
def cardFileDecls : List TopDecl :=
  [TopDecl.importTypeDecl "ConfiguredDocumentClassForName" "../../../../types/helperTypes.d.mts",
   TopDecl.importTypeDecl "DeepPartial" "../../../../types/utils.d.mts",
   TopDecl.globalClassDecl Card.header Card.members]

/-- Every top level declaration of the repository, in order. -/
def repoDecls : List TopDecl := tokenFileDecls ++ cardFileDecls

/-- Decides whether a top level declaration contains any member with an
executable body.  Only class declarations carry members; every other
declaration form is type only. -/
def declHasRuntimeCode : TopDecl → Bool
  | TopDecl.ambientClassDecl _ ms => ms.any (fun m => m.hasBody)
  | TopDecl.globalClassDecl _ ms => ms.any (fun m => m.hasBody)
  | _ => false

/-- Class names declared by a top level declaration. -/
def declClassNames : TopDecl → List String
  | TopDecl.ambientClassDecl h _ => [h.name]
  | TopDecl.globalClassDecl h _ => [h.name]
  | _ => []

/-- Names a top level declaration contributes to the global scope. -/
def declGlobalNames : TopDecl → List String
  | TopDecl.globalAliasBlock l => l.map (fun p => p.fst)
  | TopDecl.globalClassDecl h _ => [h.name]
  | _ => []

/-- Names a top level declaration exports as the module default. -/
def declDefaultExports : TopDecl → List String
  | TopDecl.exportDefaultDecl n => [n]
  | _ => []

/-- Decides whether a promise type may resolve to undefined: true
exactly when the type is an application of Promise whose argument has
undefined as a union alternative. -/
def unionHasUndefined : TSType → Bool
  | TSType.undefinedType => true
  | TSType.union a b => unionHasUndefined a || unionHasUndefined b
  | _ => false

/-- Decides whether a declared return type is a Promise whose result
type includes undefined. -/
def promiseMayResolveUndefined : TSType → Bool
  | TSType.app1 n a => n == "Promise" && unionHasUndefined a
  | _ => false

/-- Reads the declared minimum of a number field of a schema. -/
def schemaFieldMin (s : List (String × FieldType)) (n : String) : Option Int :=
  match lookupField s n with
  | some (FieldType.numberField o) => o.minVal
  | _ => none

/-- Reads the declared maximum of a number field of a schema. -/
def schemaFieldMax (s : List (String × FieldType)) (n : String) : Option Int :=
  match lookupField s n with
  | some (FieldType.numberField o) => o.maxVal
  | _ => none

/-- Reads the declared positive option of a number field of a schema. -/
def schemaFieldPositive (s : List (String × FieldType)) (n : String) : Option Bool :=
  match lookupField s n with
  | some (FieldType.numberField o) => o.positive
  | _ => none

/-- Reads the declared choices restriction of a number field of a
schema. -/
def schemaFieldChoices (s : List (String × FieldType)) (n : String) : Option String :=
  match lookupField s n with
  | some (FieldType.numberField o) => o.choices
  | _ => none

/-- Decides whether the named field is an array field declared with a
validate option. -/
def schemaArrayHasValidate (s : List (String × FieldType)) (n : String) : Bool :=
  match lookupField s n with
  | some (FieldType.arrayField _ b) => b
  | _ => false

/-- Claim C1: the source files contain no executable bodies.  Every
top level declaration of the repository is free of runtime code, no
member of BaseToken or Card carries a body, and the only classes the
repository declares are BaseToken and Card, so no parser, state
machine, storage engine, protocol or algorithm is implemented
anywhere in the repository. -/
theorem spec_C1_no_executable_bodies :
    repoDecls.all (fun d => !declHasRuntimeCode d) = true ∧
    BaseToken.members.all (fun m => !m.hasBody) = true ∧
    Card.members.all (fun m => !m.hasBody) = true ∧
    (repoDecls.map declClassNames).flatten = ["BaseToken", "Card"] :=
  ⟨rfl, rfl, rfl, rfl⟩

/-- Claim C2: the private static validation operations of BaseToken,
validateDetectionModes and canUpdate, are present as method signatures
only and are never implemented in this repository. -/
theorem spec_C2_validators_signature_only :
    findMember BaseToken.members "validateDetectionModes" = some BaseToken.validateDetectionModes ∧
    BaseToken.validateDetectionModes.kind = MemberKind.method ∧
    BaseToken.validateDetectionModes.isPrivate = true ∧
    BaseToken.validateDetectionModes.hasBody = false ∧
    findMember BaseToken.members "canUpdate" = some BaseToken.canUpdate ∧
    BaseToken.canUpdate.kind = MemberKind.method ∧
    BaseToken.canUpdate.isPrivate = true ∧
    BaseToken.canUpdate.hasBody = false :=
  ⟨rfl, rfl, rfl, rfl, rfl, rfl, rfl, rfl⟩

/-- Claim C3: the operations flip, pass and recall of Card and
cleanData and migrateData of BaseToken are declared as signatures
only, with no body and hence no semantics defined in this codebase. -/
theorem spec_C3_operations_signature_only :
    findMember Card.members "flip" = some Card.flip ∧ Card.flip.hasBody = false ∧
    findMember Card.members "pass" = some Card.pass ∧ Card.pass.hasBody = false ∧
    findMember Card.members "recall" = some Card.recall ∧ Card.recall.hasBody = false ∧
    findMember BaseToken.members "cleanData" = some BaseToken.cleanData ∧
    BaseToken.cleanData.hasBody = false ∧
    findMember BaseToken.members "migrateData" = some BaseToken.migrateData ∧
    BaseToken.migrateData.hasBody = false :=
  ⟨rfl, rfl, rfl, rfl, rfl, rfl, rfl, rfl, rfl, rfl⟩

/-- Claim C4: the repository declares exactly the two record shapes
BaseToken, whose document metadata names it Token, and Card; the Token
schema has position fields x and y, a rotation field, a sight sub
schema of vision parameters, resource bar bindings bar1 and bar2 each
with an attribute path, and a detection modes list; and the foreign
key references are the actorId field pointing at BaseActor with
idOnly, the Card source getter pointing at a configured Cards stack,
and the parent document type argument of BaseToken pointing at
BaseScene. -/
theorem spec_C4_record_shapes_and_foreign_keys :
    (repoDecls.map declClassNames).flatten = ["BaseToken", "Card"] ∧
    BaseToken.metadataSpec.docName = "Token" ∧
    lookupField tokenSchema "x" = some (FieldType.numberField
      { required := some true, integer := some true, nullable := some false,
        initial := some (InitialVal.intVal 0), label := some "XCoord" }) ∧
    lookupField tokenSchema "y" = some (FieldType.numberField
      { required := some true, integer := some true, nullable := some false,
        initial := some (InitialVal.intVal 0), label := some "YCoord" }) ∧
    lookupField tokenSchema "rotation" = some (FieldType.angleField none none) ∧
    lookupField tokenSchema "sight" = some (FieldType.schemaField sightSchema) ∧
    lookupField tokenSchema "bar1" = some (FieldType.schemaField bar1Schema) ∧
    lookupField tokenSchema "bar2" = some (FieldType.schemaField bar2Schema) ∧
    (lookupField bar1Schema "attribute").isSome = true ∧
    (lookupField bar2Schema "attribute").isSome = true ∧
    lookupField tokenSchema "detectionModes" =
      some (FieldType.arrayField (FieldType.schemaField detectionModeSchema) true) ∧
    lookupField tokenSchema "actorId" =
      some (FieldType.foreignDocumentField "documents.BaseActor" true) ∧
    Card.source.retType =
      TSType.union (TSType.union (configuredInstance "Cards") TSType.undefinedType)
        TSType.nullType ∧
    BaseToken.header.typeArgs =
      [TSType.ref "BaseToken.SchemaField", TSType.ref "BaseToken.Metadata",
       TSType.union
         (TSType.app1 "InstanceType"
           (TSType.app1 "ConfiguredDocumentClass" (TSType.ref "typeof documents.BaseScene")))
         TSType.nullType] :=
  ⟨rfl, rfl, rfl, rfl, rfl, rfl, rfl, rfl, rfl, rfl, rfl, rfl, rfl, rfl⟩

/-- Claim C5: across every declared member of BaseToken and Card, the
only member whose documentation mentions a thrown error is
validateDetectionModes, and no member has a body, so no error
raising, propagation or recovery behavior is implemented by code in
the repository. -/
theorem spec_C5_throws_only_in_docs :
    (BaseToken.members ++ Card.members).filter (fun m => m.docMentionsThrows) =
      [BaseToken.validateDetectionModes] ∧
    (BaseToken.members ++ Card.members).all (fun m => !m.hasBody) = true :=
  ⟨rfl, rfl⟩

/-- Claim C6: the Token schema declares its invariants, namely the
minimum 0 on sight range, the bounds minus one to one on brightness,
saturation and contrast, positivity of width and height, choice
restrictions on displayName, disposition and displayBars, and the
validate hook on detectionModes, yet no top level declaration of the
repository carries runtime code, so none of these invariants is
checked by code present here. -/
theorem spec_C6_invariants_declared_not_checked :
    schemaFieldMin sightSchema "range" = some 0 ∧
    schemaFieldMin sightSchema "brightness" = some (-1) ∧
    schemaFieldMax sightSchema "brightness" = some 1 ∧
    schemaFieldMin sightSchema "saturation" = some (-1) ∧
    schemaFieldMax sightSchema "saturation" = some 1 ∧
    schemaFieldMin sightSchema "contrast" = some (-1) ∧
    schemaFieldMax sightSchema "contrast" = some 1 ∧
    schemaFieldPositive tokenSchema "width" = some true ∧
    schemaFieldPositive tokenSchema "height" = some true ∧
    schemaFieldChoices tokenSchema "displayName" = some "CONST.TOKEN_DISPLAY_MODES" ∧
    schemaFieldChoices tokenSchema "disposition" = some "CONST.TOKEN_DISPOSITIONS" ∧
    schemaFieldChoices tokenSchema "displayBars" = some "CONST.TOKEN_DISPLAY_MODES" ∧
    schemaArrayHasValidate tokenSchema "detectionModes" = true ∧
    repoDecls.all (fun d => !declHasRuntimeCode d) = true :=
  ⟨rfl, rfl, rfl, rfl, rfl, rfl, rfl, rfl, rfl, rfl, rfl, rfl, rfl, rfl⟩

/-- Claim C7: the entire external interface of the repository is the
exported ambient type surface: the sole default export is BaseToken,
the names contributed to the global scope are exactly TokenSightData,
TokenDetectionMode, TokenData, TokenBarData and the class Card, and
no declaration carries runtime code, so the repository owns no wire
format, file format or command line surface. -/
theorem spec_C7_export_surface :
    (repoDecls.map declDefaultExports).flatten = ["BaseToken"] ∧
    (repoDecls.map declGlobalNames).flatten =
      ["TokenSightData", "TokenDetectionMode", "TokenData", "TokenBarData", "Card"] ∧
    repoDecls.all (fun d => !declHasRuntimeCode d) = true :=
  ⟨rfl, rfl, rfl⟩

/-- Claim C8: inside the BaseToken namespace, ConstructorData is
declared as a plain alias of UpdateData, so under any interpretation
of the namespace type declarations a value is accepted as constructor
data exactly when it is accepted as update data. -/
theorem spec_C8_constructor_data_is_update_data :
    lookupAlias BaseToken.typeAliases "ConstructorData" =
      some (NSTypeDef.aliasOf "UpdateData") ∧
    ∀ (V : Type) (I : NSTypeDef → V → Prop) (v : V),
      acceptedAs I "ConstructorData" v ↔ acceptedAs I "UpdateData" v :=
  ⟨rfl, fun _ _ _ => Iff.rfl⟩

/-- Claim C9: the declared signatures of play and discard are
identical to that of pass: the same parameter list taking a
configured Cards instance and an optional PassOptions value, and the
same promise return type resolving to a configured Card instance or
undefined. -/
theorem spec_C9_play_discard_alias_pass :
    Card.play.params = Card.pass.params ∧ Card.play.retType = Card.pass.retType ∧
    Card.discard.params = Card.pass.params ∧ Card.discard.retType = Card.pass.retType ∧
    Card.pass.params =
      [{ name := "to", type := configuredInstance "Cards", optional := false },
       { name := "options",
         type := TSType.union (TSType.ref "Cards.PassOptions") TSType.undefinedType,
         optional := true }] ∧
    Card.pass.retType =
      TSType.app1 "Promise" (TSType.union (configuredInstance "Card") TSType.undefinedType) :=
  ⟨rfl, rfl, rfl, rfl, rfl, rfl⟩

/-- Claim C10: the recall method is declared to resolve to a
configured Card in every case, its promise result type containing no
undefined alternative, while each of flip, pass, play, discard and
toMessage is declared with a promise result type that includes
undefined. -/
theorem spec_C10_recall_never_undefined :
    Card.recall.retType = TSType.app1 "Promise" (configuredInstance "Card") ∧
    promiseMayResolveUndefined Card.recall.retType = false ∧
    promiseMayResolveUndefined Card.flip.retType = true ∧
    promiseMayResolveUndefined Card.pass.retType = true ∧
    promiseMayResolveUndefined Card.play.retType = true ∧
    promiseMayResolveUndefined Card.discard.retType = true ∧
    promiseMayResolveUndefined Card.toMessage.retType = true :=
  ⟨rfl, rfl, rfl, rfl, rfl, rfl, rfl⟩
